import Mathlib

/-!
# Verification of the versioned-entity subsystem of `ban` (api-gestion-poc)

Shallow embedding of the repository's core: optimistic concurrency control
over entity mutation, append-only version history with field-level diffing,
and resolution of external identifiers including redirects
(`ban/core/resource.py`, `ban/core/versioning.py`, `ban/core/models.py`).

The module `ban/core/versioning.py` itself is not present under `src/`
(only its callers in `ban/core/models.py`, `ban/core/resource.py` and its
tests in `ban/tests/test_models.py` are), so the version store, the
optimistic lock and the diff engine are modelled from the spec, constrained
by the behaviour the shipped tests pin down.  The resource coercer
(`ResourceModel.coerce`) and the serialized views (`as_resource`,
`as_relation`) are embedded directly from `ban/core/resource.py`.
-/

namespace Ban

/-- A serialized field value as it appears in a snapshot payload.
Strings and integers cover every value the claims exercise; Python's
`None` is modelled by `Option` at the use sites, never by a value. -/
inductive Value where
  | str : String → Value
  | nat : Nat → Value
deriving DecidableEq, Repr

/-- A serialized field mapping: association list from field name to value. -/
abbrev Fields := List (String × Value)

/-- Modelled from the spec: `ban/core/versioning.py` is missing from
`src/`.  A Version row (§3 "Version (snapshot)"): `sequence` equals the
entity's `version` at snapshot time, `payload` holds the serialized values
of exactly the `versioned_fields` (which, per `BaseResource.__new__` in
`ban/core/resource.py`, include the `version` field itself). -/
structure Snapshot where
  sequence : Nat
  payload : Fields
deriving DecidableEq, Repr

/-- Modelled from the spec: the persisted state of one entity — its
`version` column, its current field values, and its append-only history
of snapshots, ascending by sequence (§3 "Entity", §4.2). -/
structure EntityState where
  version : Nat
  fields : Fields
  history : List Snapshot
deriving DecidableEq, Repr

/-- Modelled from the spec: a loaded instance.  `lockedVersion` is the
transient `_locked_version` recorded at fetch time (§3, §4.1); it is not
part of `EntityState`, i.e. never persisted. -/
structure Session where
  lockedVersion : Nat
  fields : Fields
deriving DecidableEq, Repr

/-- The error taxonomy of §7 relevant to the save path: Conflict is a
distinct outcome from NotFound and Validation errors. -/
inductive SaveError where
  | conflict
  | notFound
  | validation
deriving DecidableEq, Repr

/-- Modelled from the spec: the snapshot payload serializes exactly the
`versioned_fields`, which include the entity's own `version` number
(`versioned_fields` is computed in `BaseResource.__new__`,
`ban/core/resource.py`, and contains `version` for every concrete model). -/
def snapshotPayload (version : Nat) (fields : Fields) : Fields :=
  ("version", Value.nat version) :: fields

/-- Modelled from the spec: `create` assigns `version = 1` and writes
snapshot 1 (§6 "create", §3 "Version (snapshot)" lifecycle). -/
def create (fields : Fields) : EntityState :=
  { version := 1
    fields := fields
    history := [{ sequence := 1, payload := snapshotPayload 1 fields }] }

/-- Modelled from the spec: `acquire(entity)` records
`locked_version = entity.version` at load time (§4.1), for fetches both by
`get` and by `select` (test_get_model_locks_version,
test_select_first_model_locks_version). -/
def acquire (s : EntityState) : Session :=
  { lockedVersion := s.version, fields := s.fields }

/-- Modelled from the spec: the save path (§4.1 + §4.2).  The lock check
compares the session's `locked_version` with the persisted `version`; on
match the row's version becomes `locked_version + 1`, the mutated fields
are written, one snapshot with `sequence` equal to the new version is
appended, and the session's lock is refreshed; on mismatch a Conflict is
raised and the persisted state is returned untouched. -/
def save (s : EntityState) (inst : Session) (mutated : Fields) :
    EntityState × Except SaveError Session :=
  if inst.lockedVersion = s.version then
    let v := inst.lockedVersion + 1
    ({ version := v
       fields := mutated
       history := s.history ++ [{ sequence := v, payload := snapshotPayload v mutated }] },
     Except.ok { lockedVersion := v, fields := mutated })
  else
    (s, Except.error SaveError.conflict)

/-- A sequence of successful saves: each one re-acquires the lock from the
current persisted state (so the optimistic check passes) and writes the
next batch of mutated fields. -/
def applySaves : EntityState → List Fields → EntityState
  | s, [] => s
  | s, m :: ms => applySaves (save s (acquire s) m).1 ms

/-- The metadata fields of every concrete model
(`Model.resource_fields` in `ban/core/models.py`): bookkeeping values that
change on every save.  Modelled from the spec: §9 mandates that `version`
is "metadata, never a diffable field", and the shipped tests
(`test_municipality_diff_contain_only_changed_data`, asserting a diff of
length 1 after a save that necessarily bumped `version` and the
modification stamp) force all of these out of the diff. -/
def metadataFields : List String :=
  ["version", "created_at", "created_by", "modified_at", "modified_by"]

/-- Modelled from the spec: the Diff Engine §4.3,
`compute(old_payload, new_payload, tracked_fields)` — one entry per
tracked field whose value differs, mapping the field to its old and new
values; a field absent from a payload reads as `none`, the "absent"
sentinel. -/
def compute (old new : Fields) (tracked : List String) :
    List (String × Option Value × Option Value) :=
  tracked.filterMap fun f =>
    let o := old.lookup f
    let n := new.lookup f
    if o = n then none else some (f, o, n)

/-- Modelled from the spec: `diff_of` (§4.2) between two adjacent
snapshots — the Diff Engine run on the two payloads over the entity's
versioned fields minus the metadata fields (§9, and the diff-length
assertions of `ban/tests/test_models.py`). -/
def diffOf (old new : Snapshot) (versionedFields : List String) :
    List (String × Option Value × Option Value) :=
  compute old.payload new.payload
    (versionedFields.filter fun f => decide (f ∉ metadataFields))

/-- A raised Python exception, as the caller observes it: its class and
its message.  `ResourceModel.coerce` only ever raises `cls.DoesNotExist`
(`ban/core/resource.py`), with peewee's standard message on a missed
lookup and with an `Invalid identifier` message on an undeclared
identifier kind. -/
structure PyExc where
  cls : String
  msg : String
deriving DecidableEq, Repr

/-- The exception raised by `peewee`'s `Model.get` when no row matches,
re-raised or raised afresh inside `coerce`. -/
def doesNotExistExc : PyExc :=
  { cls := "DoesNotExist", msg := "Instance matching query does not exist" }

/-- One stored row of a resource model: its `id` column plus its other
identifier-bearing columns as an association list (a column that is NULL
is simply absent). -/
structure Row where
  id : String
  columns : List (String × String)
deriving DecidableEq, Repr

/-- The storage visible to `coerce`: the rows of one resource class, and
the identifier-redirect records for that class.  A redirect maps
`(identifier_kind, old_value)` to the current value (the class is fixed,
so the `entity_kind` component of the spec's key is implicit). -/
structure DB where
  rows : List Row
  redirects : List ((String × String) × String)
deriving DecidableEq, Repr

/-- The value of column `f` on a row: `getattr(cls, identifier) == id`
compares against the `id` column or any other column by name. -/
def fieldValue (r : Row) (f : String) : Option String :=
  if f = "id" then some r.id else r.columns.lookup f

/-- Embeds `cls.get(getattr(cls, identifier) == id)`: the first row whose column
`identifier` holds `value` (identifier columns are unique). -/
def getByField (db : DB) (ident value : String) : Option Row :=
  db.rows.find? fun r => fieldValue r ident == some value

/-- Modelled from the spec: `IdentifierRedirect.follow(cls, identifier,
id)` (§4.4) — `ban/core/versioning.py` is missing from `src/`.  Looks up
the redirect record keyed by `(identifier_kind, value)` and returns the
current value to retry with, or `none` when no redirect exists. -/
def follow (db : DB) (ident value : String) : Option String :=
  (db.redirects.find? fun p => p.1 == (ident, value)).map (·.2)

/-- Python's `list.split` on a single character: `splitChar c l` cuts `l`
at every occurrence of `c`; always non-empty, `[l]` when `c` does not
occur. -/
def splitChar (c : Char) : List Char → List (List Char)
  | [] => [[]]
  | x :: xs =>
    if x = c then [] :: splitChar c xs
    else
      match splitChar c xs with
      | [] => [[x]]
      | y :: ys => (x :: y) :: ys

/-- The token parse inside `coerce`: `*extra, id = id.split(':')`, then
`identifier = extra[0]` when `extra` is non-empty, else the default
identifier `'id'`; the looked-up value is the last segment. -/
def parseToken (token : String) : String × String :=
  match splitChar ':' token.data with
  | [] => ("id", token)
  | [v] => ("id", String.mk v)
  | first :: rest => (String.mk first, String.mk (rest.getLastD []))

/-- The lookup path of `coerce` once the identifier kind and value are
fixed: try the direct lookup; on a miss consult `IdentifierRedirect.follow`
once, and when it yields a truthy new value retry the lookup with it;
every remaining miss raises `DoesNotExist` (`ban/core/resource.py`,
lines 194-203). -/
def lookupStep (db : DB) (ident value : String) : Except PyExc Row :=
  match getByField db ident value with
  | some r => Except.ok r
  | none =>
    match follow db ident value with
    | some newVal =>
      if newVal = "" then Except.error doesNotExistExc
      else
        match getByField db ident newVal with
        | some r => Except.ok r
        | none => Except.error doesNotExistExc
    | none => Except.error doesNotExistExc

/-- Embeds `ResourceModel.coerce(id, identifier=None)` (`ban/core/resource.py`,
lines 183-203): with no explicit identifier, parse the token, default the
kind to `'id'`, and reject a parsed kind outside
`cls.identifiers + ['id', 'pk']` with `cls.DoesNotExist("Invalid
identifier ...")`; then run the lookup-with-redirect step. -/
def coerce (db : DB) (identifiers : List String) (token : String)
    (identifier : Option String) : Except PyExc Row :=
  match identifier with
  | some ident => lookupStep db ident token
  | none =>
    let p := parseToken token
    if p.1 ∈ identifiers ++ ["id", "pk"] then
      lookupStep db p.1 p.2
    else
      Except.error { cls := "DoesNotExist", msg := "Invalid identifier " ++ p.1 }

/-- The class of the exception carried by a failed resolution, `none` on
success. -/
def errClass : Except PyExc Row → Option String
  | Except.ok _ => none
  | Except.error e => some e.cls

/-- The serialized views of an entity (`ban/core/resource.py`,
lines 146-168): per resource field, the value `extended_field` produces
for `as_resource`, and per collection field, the value `compact_field`
produces for `as_relation` — `none` standing for Python `None`. -/
structure ResourceView where
  resourceFields : List (String × Option Value)
  collectionFields : List (String × Option Value)
deriving DecidableEq, Repr

/-- The shared loop body of `as_resource` and `as_relation`: keep a field
only when its value is not `None` (`if value is not None: out[name] =
value`). -/
def filterNone (l : List (String × Option Value)) : List (String × Value) :=
  l.filterMap fun p =>
    match p.2 with
    | some v => some (p.1, v)
    | none => none

/-- Embeds `ResourceModel.as_resource`: the resource fields whose value is not
`None`, each mapped to that value (the `None` filter of lines 152-155). -/
def asResource (r : ResourceView) : List (String × Value) :=
  filterNone r.resourceFields

/-- Embeds `ResourceModel.as_relation`: the collection fields whose value is not
`None`, each mapped to that value (the `None` filter of lines 164-167). -/
def asRelation (r : ResourceView) : List (String × Value) :=
  filterNone r.collectionFields

/-- A snapshot carries its own sequence number inside its payload under
the `version` key (the payload serializes the `versioned_fields`, which
include `version`). -/
def versionTagged (snap : Snapshot) : Prop :=
  snap.payload.lookup "version" = some (Value.nat snap.sequence)

/-! ## Lemmas about the save cycle -/

/-- A save through a freshly acquired session always passes the lock
check and produces the incremented state. -/
theorem save_acquire (s : EntityState) (m : Fields) :
    save s (acquire s) m =
      ({ version := s.version + 1
         fields := m
         history := s.history ++
           [{ sequence := s.version + 1, payload := snapshotPayload (s.version + 1) m }] },
       Except.ok { lockedVersion := s.version + 1, fields := m }) := by
  simp [save, acquire]

/-- Each successful save adds exactly one to the version. -/
theorem applySaves_version :
    ∀ (ms : List Fields) (s : EntityState),
      (applySaves s ms).version = s.version + ms.length := by
  intro ms
  induction ms with
  | nil => intro s; simp [applySaves]
  | cons m ms ih =>
    intro s
    rw [applySaves, save_acquire, ih]
    simp
    omega

/-- The sequences recorded in the history after a run of successful saves:
the previous sequences followed by the next `ms.length` version numbers. -/
theorem applySaves_history_map :
    ∀ (ms : List Fields) (s : EntityState),
      (applySaves s ms).history.map Snapshot.sequence =
        s.history.map Snapshot.sequence ++ List.range' (s.version + 1) ms.length := by
  intro ms
  induction ms with
  | nil => intro s; simp [applySaves]
  | cons m ms ih =>
    intro s
    rw [applySaves, save_acquire, ih]
    simp only [List.length_cons, List.range'_succ]
    simp [List.map_append]

/-- The snapshot written by `snapshotPayload` is version-tagged. -/
theorem lookup_version_snapshotPayload (v : Nat) (m : Fields) :
    (snapshotPayload v m).lookup "version" = some (Value.nat v) := by
  simp [snapshotPayload, List.lookup_cons]

/-- Successful saves only append version-tagged snapshots. -/
theorem applySaves_versionTagged :
    ∀ (ms : List Fields) (s : EntityState),
      (∀ snap ∈ s.history, versionTagged snap) →
      ∀ snap ∈ (applySaves s ms).history, versionTagged snap := by
  intro ms
  induction ms with
  | nil => intro s h; simpa [applySaves] using h
  | cons m ms ih =>
    intro s h
    rw [applySaves, save_acquire]
    apply ih
    intro snap hsnap
    simp at hsnap
    rcases hsnap with hold | hnew
    · exact h snap hold
    · subst hnew
      exact lookup_version_snapshotPayload _ _

/-- Every snapshot of a freshly created then repeatedly saved entity is
version-tagged. -/
theorem create_applySaves_versionTagged (fs : Fields) (ms : List Fields) :
    ∀ snap ∈ (applySaves (create fs) ms).history, versionTagged snap := by
  apply applySaves_versionTagged
  intro snap hsnap
  simp [create] at hsnap
  subst hsnap
  exact lookup_version_snapshotPayload _ _

/-- After creation plus `N` successful saves the recorded sequences are
exactly `1, 2, ..., N + 1`. -/
theorem create_applySaves_history_map (fs : Fields) (ms : List Fields) :
    (applySaves (create fs) ms).history.map Snapshot.sequence =
      List.range' 1 (ms.length + 1) := by
  rw [applySaves_history_map, List.range'_succ]
  simp [create]

/-- Length of the history after creation plus `N` successful saves. -/
theorem create_applySaves_history_length (fs : Fields) (ms : List Fields) :
    (applySaves (create fs) ms).history.length = ms.length + 1 := by
  have h := congrArg List.length (create_applySaves_history_map fs ms)
  simpa using h

/-! ## Lemmas about the diff engine -/

/-- A field name is a key of the computed diff exactly when it is tracked
and its value differs between the two payloads. -/
theorem mem_keys_compute {old new : Fields} {tracked : List String} {f : String} :
    f ∈ (compute old new tracked).map (·.1) ↔
      f ∈ tracked ∧ old.lookup f ≠ new.lookup f := by
  constructor
  · intro h
    rcases List.mem_map.1 h with ⟨p, hp, hfst⟩
    rcases List.mem_filterMap.1 hp with ⟨t, ht, hg⟩
    by_cases hc : old.lookup t = new.lookup t
    · simp [compute, hc] at hg
    · simp only [compute, if_neg hc] at hg
      injection hg with hg
      subst hg
      have htf : t = f := hfst
      subst htf
      exact ⟨ht, hc⟩
  · intro h
    refine List.mem_map.2 ⟨(f, old.lookup f, new.lookup f), ?_, rfl⟩
    exact List.mem_filterMap.2 ⟨f, h.1, by simp [compute, h.2]⟩

/-- The `version` field never appears among the keys of the diff between
two snapshots, whatever the versioned fields are. -/
theorem version_not_mem_diff_keys (old new : Snapshot) (vf : List String) :
    "version" ∉ (diffOf old new vf).map (·.1) := by
  intro h
  rw [diffOf, mem_keys_compute] at h
  have hmem := (List.mem_filter.1 h.1).2
  have : "version" ∉ metadataFields := of_decide_eq_true hmem
  exact this (by simp [metadataFields])

/-! ## Claim theorems: the save cycle (C1, C2, C8) -/

/-- C1: a save attempted while the session's locked version differs from
the persisted version fails with a Conflict error — an outcome distinct
from NotFound and Validation — and leaves the persisted state untouched:
same version, same field values, same number of history snapshots. -/
theorem stale_save_conflicts (s : EntityState) (inst : Session) (m : Fields)
    (h : inst.lockedVersion ≠ s.version) :
    (save s inst m).2 = Except.error SaveError.conflict ∧
    SaveError.conflict ≠ SaveError.notFound ∧
    SaveError.conflict ≠ SaveError.validation ∧
    (save s inst m).1 = s ∧
    (save s inst m).1.version = s.version ∧
    (save s inst m).1.fields = s.fields ∧
    (save s inst m).1.history.length = s.history.length := by
  simp [save, h]

/-- Witness for C1: a session locked at version 0 against a
freshly created entity (persisted version 1) conflicts and changes
nothing. -/
theorem stale_save_conflicts_witness :
    (save (create []) { lockedVersion := 0, fields := [] } []).2 =
      Except.error SaveError.conflict ∧
    (save (create []) { lockedVersion := 0, fields := [] } []).1 = create [] :=
  ⟨(stale_save_conflicts (create []) { lockedVersion := 0, fields := [] } []
      (by decide)).1,
   (stale_save_conflicts (create []) { lockedVersion := 0, fields := [] } []
      (by decide)).2.2.2.1⟩

/-- C2: after creation followed by `N` successful saves, the version is
`1 + N` and the history holds exactly `N + 1` snapshots whose sequences
are exactly `1, 2, ..., N + 1` in ascending order. -/
theorem version_after_saves (fs : Fields) (ms : List Fields) :
    (applySaves (create fs) ms).version = 1 + ms.length ∧
    (applySaves (create fs) ms).history.length = ms.length + 1 ∧
    (applySaves (create fs) ms).history.map Snapshot.sequence =
      List.range' 1 (ms.length + 1) := by
  refine ⟨?_, create_applySaves_history_length fs ms,
    create_applySaves_history_map fs ms⟩
  rw [applySaves_version]
  simp [create]

/-- C8: the locked version recorded at fetch time equals the persisted
version; a matching save succeeds and hands back a session whose locked
version is refreshed to the new persisted version; and the persisted
outcome of a save does not depend on the session beyond its locked
version matching — the locked version itself is no part of the persisted
`EntityState`. -/
theorem locked_version_tracks (s : EntityState) (inst inst2 : Session) (m : Fields) :
    (acquire s).lockedVersion = s.version ∧
    (inst.lockedVersion = s.version →
      (save s inst m).2 =
        Except.ok { lockedVersion := (save s inst m).1.version, fields := m }) ∧
    (inst.lockedVersion = s.version → inst2.lockedVersion = s.version →
      (save s inst m).1 = (save s inst2 m).1) := by
  refine ⟨rfl, ?_, ?_⟩
  · intro h
    simp [save, h]
  · intro h h2
    simp [save, h, h2]

/-- Witness for C8: a freshly created entity, a matching session, and a
second matching session with different pending fields. -/
theorem locked_version_tracks_witness :
    (acquire (create [])).lockedVersion = (create []).version ∧
    (save (create []) { lockedVersion := 1, fields := [] } []).2 = Except.ok { lockedVersion := (save (create []) { lockedVersion := 1, fields := [] } []).1.version, fields := [] } ∧
    (save (create []) { lockedVersion := 1, fields := [] } []).1 =
      (save (create []) { lockedVersion := 1, fields := [("x", Value.nat 3)] } []).1 :=
  ⟨(locked_version_tracks (create []) { lockedVersion := 1, fields := [] }
      { lockedVersion := 1, fields := [("x", Value.nat 3)] } []).1,
   (locked_version_tracks (create []) { lockedVersion := 1, fields := [] }
      { lockedVersion := 1, fields := [("x", Value.nat 3)] } []).2.1 (by decide),
   (locked_version_tracks (create []) { lockedVersion := 1, fields := [] }
      { lockedVersion := 1, fields := [("x", Value.nat 3)] } []).2.2
      (by decide) (by decide)⟩

/-! ## Claim theorems: the diff engine (C3, C9) -/

/-- C3 (amended): for every tracked, non-metadata field `F`, the diff
between two snapshots contains `F` exactly when the serialized value of
`F` differs between the two payloads — so re-assigning a field to an
equal value never puts it in a diff.  The claim as frozen quantifies over
every field; it fails for the `version` field (see the counterexample),
which the diff excludes even though its serialized value differs between
any two adjacent payloads. -/
theorem diff_contains_iff_changed (old new : Snapshot) (vf : List String)
    (F : String) (h1 : F ∈ vf) (h2 : F ∉ metadataFields) :
    F ∈ (diffOf old new vf).map (·.1) ↔
      old.payload.lookup F ≠ new.payload.lookup F := by
  rw [diffOf, mem_keys_compute]
  simp [List.mem_filter, h1, h2]

/-- Witness for C3 (amended): the `name` field, changed between two
concrete snapshots, appears in their diff. -/
theorem diff_contains_iff_changed_witness :
    ("name" ∈ (diffOf { sequence := 1, payload := [("name", Value.str "A")] }
        { sequence := 2, payload := [("name", Value.str "B")] }
        ["name", "version"]).map (·.1) ↔
      List.lookup "name" [("name", Value.str "A")] ≠
        List.lookup "name" [("name", Value.str "B")]) :=
  diff_contains_iff_changed
    { sequence := 1, payload := [("name", Value.str "A")] }
    { sequence := 2, payload := [("name", Value.str "B")] }
    ["name", "version"] "name" (by decide) (by decide)

/-- Counterexample for C3 as frozen: on the entity created with
`name = "A"` then saved once with `name = "B"`, the two adjacent
snapshots' payloads differ at the serialized `version` field, yet
`version` is not among the diff's fields — refuting "the diff contains a
field F iff the serialized value of F differs between the two payloads"
at `F = "version"`. -/
theorem diff_iff_cex :
    let e := applySaves (create [("name", Value.str "A")]) [[("name", Value.str "B")]]
    let old := e.history.getD 0 { sequence := 0, payload := [] }
    let new := e.history.getD 1 { sequence := 0, payload := [] }
    old.payload.lookup "version" ≠ new.payload.lookup "version" ∧
    "version" ∉ (diffOf old new ["name", "version"]).map (·.1) := by
  decide

/-- C9: between any two adjacent snapshots of an entity's history the
serialized `version` value differs, yet `version` never appears among the
fields of their diff — version is metadata, not a diffable field. -/
theorem version_excluded_from_diff (fs : Fields) (ms : List Fields)
    (old new : Snapshot)
    (hold : old ∈ (applySaves (create fs) ms).history)
    (hnew : new ∈ (applySaves (create fs) ms).history)
    (hadj : new.sequence = old.sequence + 1) (vf : List String) :
    old.payload.lookup "version" ≠ new.payload.lookup "version" ∧
    "version" ∉ (diffOf old new vf).map (·.1) := by
  refine ⟨?_, version_not_mem_diff_keys old new vf⟩
  have h1 := create_applySaves_versionTagged fs ms old hold
  have h2 := create_applySaves_versionTagged fs ms new hnew
  rw [versionTagged] at h1 h2
  rw [h1, h2, hadj]
  simp

/-- Witness for C9: the two snapshots of a created-then-saved-once
municipality-like entity. -/
theorem version_excluded_from_diff_witness :
    List.lookup "version"
        [("version", Value.nat 1), ("name", Value.str "A")] ≠
      List.lookup "version"
        [("version", Value.nat 2), ("name", Value.str "B")] ∧
    "version" ∉ (diffOf
      { sequence := 1, payload := [("version", Value.nat 1), ("name", Value.str "A")] }
      { sequence := 2, payload := [("version", Value.nat 2), ("name", Value.str "B")] }
      ["name", "version"]).map (·.1) :=
  version_excluded_from_diff [("name", Value.str "A")] [[("name", Value.str "B")]]
    { sequence := 1, payload := [("version", Value.nat 1), ("name", Value.str "A")] }
    { sequence := 2, payload := [("version", Value.nat 2), ("name", Value.str "B")] }
    (by decide) (by decide) (by decide) ["name", "version"]

/-! ## Lemmas about token parsing -/

/-- Splitting at a character that does not occur leaves the list whole. -/
theorem splitChar_of_not_mem (c : Char) :
    ∀ (l : List Char), c ∉ l → splitChar c l = [l] := by
  intro l
  induction l with
  | nil => intro h; rfl
  | cons x xs ih =>
    intro h
    have hx : ¬x = c := fun he => h (he ▸ List.mem_cons_self x xs)
    rw [splitChar, if_neg hx, ih fun hm => h (List.mem_cons_of_mem x hm)]

/-- A token without a colon parses to the default identifier kind `id`
with the whole token as the value. -/
theorem parseToken_no_colon (token : String) (h : ':' ∉ token.data) :
    parseToken token = ("id", token) := by
  unfold parseToken
  rw [splitChar_of_not_mem ':' token.data h]

/-! ## Claim theorems: identifier resolution (C4, C5, C6, C7) -/

/-- C4 (amended): a token whose parsed identifier kind is not among the
declared identifier kinds (nor `id`/`pk`) makes `coerce` fail — without
consulting the store at all (the result is the same for every `db`) —
by raising `DoesNotExist` with an `Invalid identifier` message.  The
exception class is the same `DoesNotExist` used for not-found, so the two
outcomes differ only in their message, not in their class (see the
counterexample). -/
theorem invalid_identifier_error (db : DB) (identifiers : List String)
    (token : String)
    (h : (parseToken token).1 ∉ identifiers ++ ["id", "pk"]) :
    coerce db identifiers token none =
      Except.error { cls := "DoesNotExist",
                     msg := "Invalid identifier " ++ (parseToken token).1 } := by
  simp [coerce, h]

/-- Witness for C4 (amended): `foo` is not a municipality identifier
kind, so `foo:bar` is rejected even though a row with column
`foo = "bar"` exists. -/
theorem invalid_identifier_error_witness :
    coerce { rows := [{ id := "x", columns := [("foo", "bar")] }], redirects := [] }
        ["insee", "siren"] "foo:bar" none =
      Except.error { cls := "DoesNotExist",
                     msg := "Invalid identifier " ++ (parseToken "foo:bar").1 } :=
  invalid_identifier_error
    { rows := [{ id := "x", columns := [("foo", "bar")] }], redirects := [] }
    ["insee", "siren"] "foo:bar" (by decide)

/-- Counterexample for C4 as frozen: both the undeclared-kind failure and
the plain not-found failure carry the very same exception class
`DoesNotExist` — the code has no separate InvalidIdentifier error class,
so the caller cannot distinguish the two outcomes by catching a distinct
error type. -/
theorem invalid_identifier_cex :
    errClass (coerce { rows := [], redirects := [] } ["insee"] "foo:bar" none) =
      some "DoesNotExist" ∧
    errClass (coerce { rows := [], redirects := [] } ["insee"] "nope" none) =
      some "DoesNotExist" ∧
    coerce { rows := [], redirects := [] } ["insee"] "foo:bar" none =
      Except.error { cls := "DoesNotExist", msg := "Invalid identifier foo" } :=
  ⟨rfl, rfl, rfl⟩

/-- C5 (amended): resolution consults the redirect resolver at most once.
When the direct lookup misses, one redirect lookup is made; if the
redirected value's lookup also misses, `coerce` fails with `DoesNotExist`
— whatever further redirect records exist (the statement holds for every
`db`, including ones whose redirect chain would reach a live row in two
hops).  Termination is structural: there is no loop and no hop counter,
and no RedirectCycle error exists in the code. -/
theorem redirect_single_hop (db : DB) (identifiers : List String)
    (ident value v2 : String)
    (h1 : getByField db ident value = none)
    (h2 : follow db ident value = some v2)
    (h3 : ¬v2 = "")
    (h4 : getByField db ident v2 = none) :
    coerce db identifiers value (some ident) = Except.error doesNotExistExc := by
  simp [coerce, lookupStep, h1, h2, h3, h4]

/-- Witness for C5 (amended): redirect `insee: A → B` where `B` has no
row either. -/
theorem redirect_single_hop_witness :
    coerce { rows := [], redirects := [(("insee", "A"), "B")] } ["insee"] "A"
        (some "insee") = Except.error doesNotExistExc :=
  redirect_single_hop { rows := [], redirects := [(("insee", "A"), "B")] }
    ["insee"] "insee" "A" "B" (by decide) (by decide) (by decide) (by decide)

/-- Counterexample for C5 as frozen: with redirects `insee: A → B` and
`insee: B → C` and a live row holding `insee = C`, resolving `insee:A`
fails with `DoesNotExist` — the resolver is not consulted again with the
new value after the retried lookup misses, so the chain is silently
truncated after one hop instead of reaching the live row; and a cyclic
redirect `insee: X → X` likewise yields `DoesNotExist`, never a
RedirectCycle error. -/
theorem redirect_hop_bound_cex :
    coerce { rows := [{ id := "m1", columns := [("insee", "C")] }],
             redirects := [(("insee", "A"), "B"), (("insee", "B"), "C")] }
        ["insee"] "insee:A" none = Except.error doesNotExistExc ∧
    coerce { rows := [], redirects := [(("insee", "X"), "X")] }
        ["insee"] "insee:X" none = Except.error doesNotExistExc ∧
    errClass (coerce { rows := [], redirects := [(("insee", "X"), "X")] }
        ["insee"] "insee:X" none) = some "DoesNotExist" :=
  ⟨rfl, rfl, rfl⟩

/-- C6: after a rename recorded as a redirect `(kind, old_value) →
new_value`, resolving `old_value` under that identifier kind — whether
passed explicitly or parsed from a token — returns the live row currently
holding `new_value`. -/
theorem redirect_resolves (db : DB) (identifiers : List String)
    (ident oldVal newVal token : String) (r : Row)
    (h1 : getByField db ident oldVal = none)
    (h2 : follow db ident oldVal = some newVal)
    (h3 : ¬newVal = "")
    (h4 : getByField db ident newVal = some r)
    (hp : parseToken token = (ident, oldVal))
    (hm : ident ∈ identifiers ++ ["id", "pk"]) :
    coerce db identifiers oldVal (some ident) = Except.ok r ∧
    coerce db identifiers token none = Except.ok r := by
  constructor
  · simp [coerce, lookupStep, h1, h2, h3, h4]
  · simp [coerce, hp, hm, lookupStep, h1, h2, h3, h4]

/-- Witness for C6: municipality insee `75057` renamed to `75056` with a
redirect; both `coerce("75057", "insee")` and `coerce("insee:75057")`
return the row holding `75056`. -/
theorem redirect_resolves_witness :
    coerce { rows := [{ id := "m1", columns := [("insee", "75056")] }],
             redirects := [(("insee", "75057"), "75056")] }
        ["insee"] "75057" (some "insee") =
      Except.ok { id := "m1", columns := [("insee", "75056")] } ∧
    coerce { rows := [{ id := "m1", columns := [("insee", "75056")] }],
             redirects := [(("insee", "75057"), "75056")] }
        ["insee"] "insee:75057" none =
      Except.ok { id := "m1", columns := [("insee", "75056")] } :=
  redirect_resolves
    { rows := [{ id := "m1", columns := [("insee", "75056")] }],
      redirects := [(("insee", "75057"), "75056")] }
    ["insee"] "insee" "75057" "75056" "insee:75057"
    { id := "m1", columns := [("insee", "75056")] }
    (by decide) (by decide) (by decide) (by decide) (by decide) (by decide)

/-- C7: a bare token (no colon) is looked up under the default identifier
kind `id` with the whole token as value, returning the matching row; and
a namespaced token such as `insee:75056` is looked up under the `insee`
column with value `75056`. -/
theorem token_lookup (db : DB) (identifiers : List String) (token : String)
    (r s : Row) :
    (':' ∉ token.data → getByField db "id" token = some r →
      coerce db identifiers token none = Except.ok r) ∧
    (getByField db "insee" "75056" = some s → "insee" ∈ identifiers →
      coerce db identifiers "insee:75056" none = Except.ok s) := by
  constructor
  · intro hc hget
    have hp := parseToken_no_colon token hc
    simp [coerce, hp, lookupStep, hget]
  · intro hget hmem
    have hp : parseToken "insee:75056" = ("insee", "75056") := by decide
    simp [coerce, hp, hmem, lookupStep, hget]

/-- Witness for C7: a store with one row whose `id` is `X` and whose
`insee` is `75056`. -/
theorem token_lookup_witness :
    coerce { rows := [{ id := "X", columns := [("insee", "75056")] }],
             redirects := [] } ["insee"] "X" none =
      Except.ok { id := "X", columns := [("insee", "75056")] } ∧
    coerce { rows := [{ id := "X", columns := [("insee", "75056")] }],
             redirects := [] } ["insee"] "insee:75056" none =
      Except.ok { id := "X", columns := [("insee", "75056")] } :=
  ⟨(token_lookup ⟨[⟨"X", [("insee", "75056")]⟩], []⟩ ["insee"] "X"
      ⟨"X", [("insee", "75056")]⟩ ⟨"X", [("insee", "75056")]⟩).1
      (by decide) (by decide),
   (token_lookup ⟨[⟨"X", [("insee", "75056")]⟩], []⟩ ["insee"] "X"
      ⟨"X", [("insee", "75056")]⟩ ⟨"X", [("insee", "75056")]⟩).2
      (by decide) (by decide)⟩

/-! ## Claim theorem: serialized views (C10) -/

/-- A pair survives the `None` filter exactly when the underlying field
holds that value non-`None`. -/
theorem mem_filterNone {l : List (String × Option Value)} {n : String}
    {v : Value} : (n, v) ∈ filterNone l ↔ (n, some v) ∈ l := by
  rw [filterNone, List.mem_filterMap]
  constructor
  · rintro ⟨⟨a, b⟩, hp, hg⟩
    cases b with
    | none => simp at hg
    | some w =>
      simp at hg
      rcases hg with ⟨rfl, rfl⟩
      exact hp
  · intro h
    exact ⟨(n, some v), h, rfl⟩

/-- C10: the serialized resource view and the relation view contain a key
exactly when the corresponding field's value is not `None` — so a `None`
field is omitted and every key present maps to an actual value (the
output type carries no `None` at all). -/
theorem views_never_none (r : ResourceView) (n : String) (v : Value) :
    ((n, v) ∈ asResource r ↔ (n, some v) ∈ r.resourceFields) ∧
    ((n, v) ∈ asRelation r ↔ (n, some v) ∈ r.collectionFields) :=
  ⟨mem_filterNone, mem_filterNone⟩

end Ban
